import Mathlib

/-!
# Fastro request-handling pipeline: a shallow embedding

This file embeds the request-handling core of the Fastro web framework
(`app/server.ts`, given here as `src/unnamed/part_000`) in Lean 4 and proves
properties of the dispatcher, the middleware chain runner, the response
sender, the query/form decoders and the per-request error boundary.

JavaScript strings are `String`, JS objects built by `obj[key] = value`
assignments are association lists in insertion order, JS `undefined` for a
field value is `Option.none`, and thrown JS errors are `Except.error` carrying
the error message. External library functions that are not part of this
repository (`decodeURIComponent`, `JSON.parse`, the transport write
`req.respond`) are parameters of the embedding.
-/

set_option maxRecDepth 8000

namespace Fastro

/-! ## JavaScript string primitives

`String.prototype.split`, `String.prototype.includes` and
`String.prototype.replace` (single occurrence, string pattern) modelled over
character lists so that all evaluations kernel-reduce. -/

/-- `leadsWith needle hay` is true when `hay` starts with `needle`. -/
def leadsWith : List Char → List Char → Bool
  | [], _ => true
  | _ :: _, [] => false
  | a :: as, b :: bs => a == b && leadsWith as bs

/-- First occurrence of `needle` inside `hay`: the text before it and the text
after it.  `none` when `needle` does not occur. -/
def breakAt (needle : List Char) : List Char → Option (List Char × List Char)
  | [] => if leadsWith needle [] then some ([], []) else none
  | c :: rest =>
    if leadsWith needle (c :: rest) then some ([], (c :: rest).drop needle.length)
    else (breakAt needle rest).map (fun p => (c :: p.1, p.2))

/-- JS `hay.includes(needle)`. -/
def strIncludes (hay needle : String) : Bool :=
  (breakAt needle.toList hay.toList).isSome

/-- JS `s.split(sep)` for a one-character separator (the only separators the
source uses are `"?"`, `"&"` and `"="`). -/
def splitChar (sep : Char) : List Char → List (List Char)
  | [] => [[]]
  | c :: rest =>
    if c == sep then [] :: splitChar sep rest
    else
      match splitChar sep rest with
      | [] => [[c]]
      | g :: gs => (c :: g) :: gs

/-- JS `s.split(sep)` on strings. -/
def strSplitChar (s : String) (sep : Char) : List String :=
  (splitChar sep s.toList).map (fun cs => String.mk cs)

/-- JS `s.replace(pat, repl)` with a string pattern: replaces the first
occurrence only. -/
def replaceFirst (s pat repl : String) : String :=
  match breakAt pat.toList s.toList with
  | none => s
  | some (b, a) => String.mk (b ++ repl.toList ++ a)

/-! ## JSON values and `JSON.stringify` -/

/-- JSON-like runtime values. Numbers are integers (every number the claims
exercise is integral). -/
inductive Json where
  | null
  | bool (b : Bool)
  | num (n : Int)
  | str (s : String)
  | arr (xs : List Json)
  | obj (fields : List (String × Json))

/-- Escaping of one character inside a JSON string literal. -/
def escChar (c : Char) : List Char :=
  if c = '"' then ['\\', '"']
  else if c = '\\' then ['\\', '\\']
  else if c = '\n' then ['\\', 'n']
  else if c = '\t' then ['\\', 't']
  else if c = '\r' then ['\\', 'r']
  else [c]

/-- Escaping of a JSON string body. -/
def jsonEscape (s : String) : String :=
  String.mk (List.foldr (fun c acc => escChar c ++ acc) [] s.toList)

mutual

/-- `JSON.stringify` (no spacing, fields in insertion order). -/
def Json.stringify : Json → String
  | .null => "null"
  | .bool b => if b then "true" else "false"
  | .num n => toString n
  | .str s => "\"" ++ jsonEscape s ++ "\""
  | .arr xs => "[" ++ Json.stringifyItems xs ++ "]"
  | .obj fs => "\x7b" ++ Json.stringifyFields fs ++ "\x7d"

/-- Comma-separated array items. -/
def Json.stringifyItems : List Json → String
  | [] => ""
  | [x] => Json.stringify x
  | x :: y :: rest => Json.stringify x ++ "," ++ Json.stringifyItems (y :: rest)

/-- Comma-separated object fields. -/
def Json.stringifyFields : List (String × Json) → String
  | [] => ""
  | [(k, v)] => "\"" ++ jsonEscape k ++ "\":" ++ Json.stringify v
  | (k, v) :: f :: rest =>
    "\"" ++ jsonEscape k ++ "\":" ++ Json.stringify v ++ "," ++
      Json.stringifyFields (f :: rest)

end

/-! ## Headers and keyed data records

JS `Headers` is an ordered name/value list with replacing `set`; JS objects
whose field values may be `undefined` are association lists over
`Option String`. -/

/-- Header list (JS `Headers`, insertion order preserved). -/
abbrev HeadersT := List (String × String)

/-- JS `headers.set(name, value)`: replace in place when the name is present,
append otherwise. -/
def headersSet (hs : HeadersT) (k v : String) : HeadersT :=
  if hs.any (fun p => p.1 == k) then
    hs.map (fun p => if p.1 == k then (k, v) else p)
  else hs ++ [(k, v)]

/-- JS `headers.get(name)`: `none` models the `null` of a missing header. -/
def headersGet (hs : HeadersT) (k : String) : Option String :=
  (hs.find? (fun p => p.1 == k)).map (fun p => p.2)

/-- A JS object built by `obj[key] = value` assignments; a stored `none`
models a stored `undefined` value. -/
abbrev DataT := List (String × Option String)

/-- JS `obj[key] = value`: overwrite in place or append. -/
def dataSet (d : DataT) (k : String) (v : Option String) : DataT :=
  if d.any (fun p => p.1 == k) then
    d.map (fun p => if p.1 == k then (k, v) else p)
  else d ++ [(k, v)]

/-- JS `obj[key]`: `undefined` (`none`) both for a missing key and for a
stored `undefined`. -/
def dataGet (d : DataT) (k : String) : Option String :=
  (d.find? (fun p => p.1 == k)).bind (fun p => p.2)

/-! ## Constants and schema validation

`NOT_FOUND` and `CONTENT_TYPE` are imported by the source from
`app/constant.ts`, which is not under `src/`; their values follow the spec's
message and header conventions. -/

/-- Modelled from the spec: the `NOT_FOUND` constant of `app/constant.ts`
(not under `src/`); spec section 7 names the error kind `NOT_FOUND` and the
error boundary matches it by substring. -/
def NOT_FOUND : String := "NOT_FOUND"

/-- Modelled from the spec: the `CONTENT_TYPE` header-name constant of
`app/constant.ts` (not under `src/`). -/
def CONTENT_TYPE : String := "content-type"

/-- A validation schema: declared property names and required field names.
The source's `Schema` type lives in `app/types.ts` (not under `src/`);
spec section 4.5 describes schemas as required field names plus expected
primitive types, validated fail-fast. -/
structure Schema where
  properties : List String
  required : List String

/-- Modelled from the spec: `validateObject` of `app/utils.ts` is not under
`src/`. Spec section 4.5: fails with a `VALIDATION_ERROR` naming the first
violated constraint (fail-fast); the required-field constraint is the only
one the claims exercise, and header/query records carry string values only.
A `none` schema models the JS `TypeError` raised when the source passes an
`undefined` schema through. -/
def validateObject (data : DataT) (schema : Option Schema) : Except String Unit :=
  match schema with
  | none => .error "VALIDATION_ERROR: schema is undefined"
  | some s =>
    match s.required.find? (fun r => (dataGet data r).isNone) with
    | some r => .error ("VALIDATION_ERROR: " ++ r ++ " is required")
    | none => .ok ()

/-- `validateHeaders` (`server.ts` lines 530-540): builds a record of the
schema's declared properties from the incoming headers, then validates it. -/
def validateHeaders (hs : HeadersT) (schema : Option Schema) : Except String Unit :=
  (match schema with
   | none => .error "TypeError: schema is undefined"
   | some s =>
     let target : DataT := s.properties.map (fun k => (k, headersGet hs k))
     validateObject target (some s)
   : Except String Unit).mapError (fun m => "VALIDATE_HEADERS_ERROR: " ++ m)

/-! ## Handler options and route tables -/

/-- The `validationSchema` field of handler options (`app/types.ts`). -/
structure ValidationSchema where
  headers : Option Schema
  params : Option Schema
  querystring : Option Schema
  body : Option Schema

/-- `HandlerOptions` (`app/types.ts`): allowed methods and validation
schemas; the `prefix` and `params` registration fields act before dispatch
and are not needed here. -/
structure HandlerOptions where
  methods : Option (List String)
  validationSchema : Option ValidationSchema

/-- One `dynamicController` table entry: its route key and the controller
module's options (`DynamicController` of `app/types.ts`, with
`controller.options` flattened in). -/
structure DynEntry where
  url : String
  options : Option HandlerOptions

/-- The route tables of the `Fastro` class that dispatch reads: exact-match
controllers (a `Map` from full path to the controller's options),
parametrized controllers, exact and parametrized pages, and static files.
Page modules and file contents play no role in resolution, so the page and
static tables keep only their keys. -/
structure Tables where
  controller : List (String × Option HandlerOptions)
  dynamicController : List DynEntry
  pages : List String
  dynamicPage : List String
  staticFiles : List String

/-- JS `Map.get` over an association list with unique keys. -/
def assocGet (m : List (String × Option HandlerOptions)) (k : String) :
    Option (Option HandlerOptions) :=
  (m.find? (fun p => p.1 == k)).map (fun p => p.2)

/-- The incoming request data that dispatch inspects. -/
structure RequestInfo where
  url : String
  method : String
  headers : HeadersT

/-! ## The Response Sender: `Fastro.send` (`server.ts` lines 122-162) -/

/-- The runtime values a handler can pass to `send`, one constructor per
`typeof`/`instanceof` branch of the source. -/
inductive Payload where
  | str (s : String)
  | bytes (b : List Nat)
  | undef
  | arr (xs : List Json)
  | num (n : Int)
  | bool (b : Bool)
  | bigint (n : Int)
  | obj (fields : List (String × Json))

/-- A response body: text or binary. -/
inductive Body where
  | text (s : String)
  | binary (b : List Nat)

/-- The body computation of `send`, branch for branch: strings and byte
arrays pass through, `undefined` becomes the text `"undefined"`, arrays are
JSON-stringified, number/boolean/bigint (and the other `toString` primitives)
become their string form, and everything else is JSON-stringified. -/
def serializeBody : Payload → Body
  | .str s => .text s
  | .bytes b => .binary b
  | .undef => .text "undefined"
  | .arr xs => .text (Json.stringify (.arr xs))
  | .num n => .text (toString n)
  | .bool b => .text (if b then "true" else "false")
  | .bigint n => .text (toString n)
  | .obj fs => .text (Json.stringify (.obj fs))

/-- The per-request environment `send` reads: the CORS flag and app-status
banner of the server, the current date text, the staged `set-cookie` header
of `req.response`, and the transport write `req.respond`, which may fail
(the only fallible step of the body; modelled as `Except`). -/
structure SendCtx where
  corsEnabled : Bool
  appStatus : String
  dateNow : String
  responseSetCookie : Option String
  respond : Nat → HeadersT → Body → Except String Unit

/-- The header mutations `send` performs before writing: staged cookie (when
truthy), `Connection`, `Date`, `x-powered-by`, and the wildcard CORS triple
when CORS is enabled. -/
def sendHeaders (ctx : SendCtx) (headers : HeadersT) : HeadersT :=
  let h :=
    match ctx.responseSetCookie with
    | some c => if c ≠ "" then headersSet headers "Set-Cookie" c else headers
    | none => headers
  let h := headersSet h "Connection" "keep-alive"
  let h := headersSet h "Date" ctx.dateNow
  let h := headersSet h "x-powered-by" ctx.appStatus
  if ctx.corsEnabled then
    headersSet
      (headersSet (headersSet h "Access-Control-Allow-Origin" "*")
        "Access-Control-Allow-Headers" "*")
      "Access-Control-Allow-Methods" "*"
  else h

/-- What a call to `send` did: wrote a response, or caught an internal error
and only logged it. There is no thrown outcome. -/
inductive SendResult where
  | responded (status : Nat) (headers : HeadersT) (body : Body)
  | loggedError (msg : String)

/-- Which body, if any, a `SendResult` wrote. -/
def SendResult.bodyOf : SendResult → Option Body
  | .responded _ _ b => some b
  | .loggedError _ => none

/-- `Fastro.send`: serialize, set headers, write; the surrounding
`try`/`catch` turns any internal failure into a logged `SEND_ERROR` and
returns normally. -/
def send (ctx : SendCtx) (payload : Payload) (status : Nat) (headers : HeadersT) :
    SendResult :=
  let body := serializeBody payload
  let hs := sendHeaders ctx headers
  match ctx.respond status hs body with
  | .ok () => .responded status hs body
  | .error e => .loggedError ("SEND_ERROR: " ++ e)

/-- A `SendCtx` whose transport write always succeeds. -/
def okSendCtx (cors : Bool) (app date : String) (cookie : Option String) : SendCtx :=
  { corsEnabled := cors, appStatus := app, dateNow := date,
    responseSetCookie := cookie, respond := fun _ _ _ => .ok () }

/-- A `SendCtx` whose transport write always fails with the given message. -/
def failSendCtx (msg : String) : SendCtx :=
  { corsEnabled := false, appStatus := "Fastro", dateNow := "now",
    responseSetCookie := none, respond := fun _ _ _ => .error msg }

/-! ## The request-context `send` closure
(`transformRequest`, `server.ts` lines 422-437) -/

/-- The response state `type()` and `status()` stage on the request object;
`none` models a field never assigned (JS `undefined`). -/
structure ReqState where
  httpStatus : Option Nat
  contentType : Option String

/-- The argument rewriting of the `request.send` closure: the `status`
parameter is overwritten by `request.httpStatus ? request.httpStatus : 200`
(so a staged 0 is falsy and yields 200), and when `request.contentType` is
truthy the `headers` parameter is replaced by a fresh header set holding only
that content type. Returns the status and headers actually handed to
`Fastro.send`. -/
def requestSendArgs (st : ReqState) (statusArg : Option Nat) (headersArg : HeadersT) :
    Nat × HeadersT :=
  let status :=
    match st.httpStatus with
    | some n => if n ≠ 0 then n else 200
    | none => 200
  let headers :=
    match st.contentType with
    | some ct => if ct ≠ "" then headersSet [] CONTENT_TYPE ct else headersArg
    | none => headersArg
  (status, headers)

/-- `request.send(payload, status, headers)` end to end: rewrite the
arguments from the staged state, then call `Fastro.send`. -/
def requestSend (ctx : SendCtx) (st : ReqState) (payload : Payload)
    (statusArg : Option Nat) (headersArg : HeadersT) : SendResult :=
  let a := requestSendArgs st statusArg headersArg
  send ctx payload a.1 a.2

/-! ## The per-request error boundary
(`handleRequestError`, `server.ts` lines 628-641) -/

/-- The response the error boundary writes. -/
structure ErrorResponse where
  status : Nat
  body : String
  headers : HeadersT

/-- `handleRequestError`: status starts at 500, becomes 404 when the message
contains `NOT_FOUND`, then 400 when it contains `VALIDATE` (the later check
overrides); the body is always the JSON envelope over the message and the
content type is always `application/json`. -/
def handleRequestError (msg : String) : ErrorResponse :=
  let status0 : Nat := 500
  let status1 := if strIncludes msg NOT_FOUND then 404 else status0
  let status2 := if strIncludes msg "VALIDATE" then 400 else status1
  { status := status2,
    body := Json.stringify (.obj [("error", .bool true), ("message", .str msg)]),
    headers := headersSet [] CONTENT_TYPE "application/json" }

/-! ## Querystring handling
(`validateQuery` and `getQuery`, `server.ts` lines 323-364) -/

/-- The pair-parsing loop of `getQuery`: split the query text on `&`, then
each pair on `=` (`const [key, value] = q.split("=")`, so the value is the
second component or `undefined`), assigning into a fresh object. -/
def queryParse (query : String) : DataT :=
  (strSplitChar query '&').foldl
    (fun obj q =>
      let parts := strSplitChar q '='
      dataSet obj (parts.headD "") ((parts.drop 1).head?))
    []

/-- `validateQuery`: the first `dynamicController` entry whose key the URL
includes; its guard tests `validationSchema.params` for presence but then
validates the parsed query against `validationSchema.querystring`. An entry
without options makes the JS property access throw. -/
def validateQuery (dyn : List DynEntry) (query : DataT) (url : String) :
    Except String Unit :=
  (match dyn.filter (fun e => strIncludes url e.url) with
   | [] => .ok ()
   | e :: _ =>
     match e.options with
     | none => .error "TypeError: options is undefined"
     | some o =>
       match o.validationSchema with
       | none => .ok ()
       | some vs =>
         match vs.params with
         | none => .ok ()
         | some _ => validateObject query vs.querystring
   : Except String Unit).mapError (fun m => "VALIDATE_QUERY_ERROR: " ++ m)

/-- `getQuery(key?, url?)`: reject a falsy URL; take the second component of
`url.split("?")` as the query text and reject it when falsy; parse the pairs;
run `validateQuery`; return the whole object, or the one-field object
`\x7bkey: obj[key]\x7d` when a key was given. Every failure is re-raised with
the `GET_QUERY_ERROR` prefix. -/
def getQuery (dyn : List DynEntry) (key : Option String) (url : Option String) :
    Except String DataT :=
  (match url with
   | none => .error "Url empty"
   | some u =>
     if u = "" then .error "Url empty"
     else
       match (strSplitChar u '?').drop 1 with
       | [] => .error "Query not found"
       | query :: _ =>
         if query = "" then .error "Query not found"
         else
           let obj := queryParse query
           match validateQuery dyn obj u with
           | .error e => .error e
           | .ok () =>
             match key with
             | some k => .ok [(k, dataGet obj k)]
             | none => .ok obj
   : Except String DataT).mapError (fun m => "GET_QUERY_ERROR: " ++ m)

/-! ## The form-urlencoded decoder
(`handleFormUrlEncoded`, `server.ts` lines 183-214) -/

/-- What the decoder hands back when it decoded anything: the lone object,
or the ordered list when more than one segment decoded. -/
inductive FormUrlEncodedResult where
  | single (d : Json)
  | many (ds : List Json)

/-- The external JS library functions the decoder calls: both can throw
(`decodeURIComponent` a `URIError`, `JSON.parse` a `SyntaxError`), so both
are fallible parameters of the embedding. -/
structure FormCtx where
  decodeURIComponent : String → Except String String
  jsonParse : String → Except String Json

/-- The per-segment step of the decoder's loop: a segment containing `=` is
split on `=`, value then key are URL-decoded, and a one-field object is
produced; any other segment is handed to `JSON.parse`. -/
def decodeSegment (ctx : FormCtx) (i : String) : Except String Json :=
  if strIncludes i "=" then
    let parts := strSplitChar i '='
    match ctx.decodeURIComponent ((parts.drop 1).headD "") with
    | .error e => .error e
    | .ok decodedV =>
      match ctx.decodeURIComponent (parts.headD "") with
      | .error e => .error e
      | .ok decodedK => .ok (.obj [(decodedK, .str decodedV)])
  else ctx.jsonParse i

/-- The result-shaping tail of the decoder: a list of length one collapses to
its element, longer lists stay lists, and an empty list becomes `undefined`
(`none`). -/
def formShape (data : List Json) : Option FormUrlEncodedResult :=
  if data.length > 1 then some (.many data)
  else
    match data with
    | [d] => some (.single d)
    | _ => none

/-- `handleFormUrlEncoded`: the decoded body text first has the first
occurrence of the content-type header value removed
(`bodyString.replace(contentType, "")`), is then split on `&`, each segment
decoded in order, and the result shaped; failures are re-raised with the
`HANDLE_FORM_URL_ENCODED_ERROR` prefix. -/
def handleFormUrlEncoded (ctx : FormCtx) (contentType bodyString : String) :
    Except String (Option FormUrlEncodedResult) :=
  match (strSplitChar (replaceFirst bodyString contentType "") '&').mapM
      (decodeSegment ctx) with
  | .error e => .error ("HANDLE_FORM_URL_ENCODED_ERROR: " ++ e)
  | .ok data => .ok (formShape data)

/-- The decoder as claim C7 words it, for comparison: the body itself is
split on `&`, with no removal of the content-type text. -/
def handleFormUrlEncodedClaimWording (ctx : FormCtx) (bodyString : String) :
    Except String (Option FormUrlEncodedResult) :=
  match (strSplitChar bodyString '&').mapM (decodeSegment ctx) with
  | .error e => .error ("HANDLE_FORM_URL_ENCODED_ERROR: " ++ e)
  | .ok data => .ok (formShape data)

/-- A `FormCtx` whose URL-decoder is the identity and whose `JSON.parse`
always fails (no segment of the concrete inputs below needs it). -/
def idFormCtx : FormCtx :=
  { decodeURIComponent := fun s => .ok s,
    jsonParse := fun s => .error ("Unexpected token " ++ s) }

/-! ## The Dispatcher
(`handleRoute` → `handleDynamicParams` → `handlePage` → `handleDynamicPage`
→ `handleStaticFile`, `server.ts` lines 448-626)

Each `handle*` function either settles on a terminal handler or falls through
to the next lookup; a function that invokes a handler is modelled as
returning which table entry it resolved.  `createError` of `app/utils.ts` is
not under `src/`; following the spec's message-prefix convention (section 7)
it rewrites a caught error's message to `LABEL ++ ": " ++ message`, matching
the `"LABEL: " + error.message` rewrites the source performs inline. -/

/-- The terminal handler a dispatch resolved, tagged with the matched route
key. -/
inductive Terminal where
  | controllerHit (url : String)
  | dynControllerHit (url : String)
  | pageHit (url : String)
  | dynPageHit (url : String)
  | staticHit (url : String)
  deriving DecidableEq

/-- The method and header-schema validation shared by `handleRoute` and
`handleDynamicParams`: a declared method list not containing the request
method throws `NOT_FOUND`; then a declared headers schema is validated. -/
def methodHeaderChecks (opts : Option HandlerOptions) (req : RequestInfo) :
    Except String Unit :=
  let methodCheck : Except String Unit :=
    match opts with
    | some o =>
      match o.methods with
      | some ms => if ms.contains req.method then .ok () else .error NOT_FOUND
      | none => .ok ()
    | none => .ok ()
  match methodCheck with
  | .error e => .error e
  | .ok () =>
    match opts with
    | some o =>
      match o.validationSchema with
      | some vs =>
        match vs.headers with
        | some sch => validateHeaders req.headers (some sch)
        | none => .ok ()
      | none => .ok ()
    | none => .ok ()

/-- `handleStaticFile`: exact lookup in the static-file store; a miss throws
`NOT_FOUND`, and the surrounding catch prefixes `HANDLE_STATIC_FILE_ERROR`. -/
def handleStaticFile (t : Tables) (url : String) : Except String Terminal :=
  (if t.staticFiles.contains url then .ok (.staticHit url)
   else .error NOT_FOUND
   : Except String Terminal).mapError
    (fun m => "HANDLE_STATIC_FILE_ERROR: " ++ m)

/-- `handleDynamicPage`: first `dynamicPage` entry whose key the URL
includes; a miss falls through to the static-file lookup. No catch of its
own. -/
def handleDynamicPage (t : Tables) (url : String) : Except String Terminal :=
  match t.dynamicPage.find? (fun k => strIncludes url k) with
  | some k => .ok (.dynPageHit k)
  | none => handleStaticFile t url

/-- `handlePage`: exact page lookup; a miss falls through to
`handleDynamicPage`. No catch of its own. -/
def handlePage (t : Tables) (url : String) : Except String Terminal :=
  if t.pages.contains url then .ok (.pageHit url)
  else handleDynamicPage t url

/-- `handleDynamicParams`: first `dynamicController` entry whose key the URL
includes; a miss falls through to `handlePage` (still inside this function's
`try`), a hit runs method/header validation and invokes the controller.  The
catch prefixes `HANDLE_DYNAMIC_PARAMS_ERROR` onto every error raised inside,
the fallthrough's errors included. -/
def handleDynamicParams (t : Tables) (req : RequestInfo) : Except String Terminal :=
  (match t.dynamicController.find? (fun e => strIncludes req.url e.url) with
   | none => handlePage t req.url
   | some e =>
     match methodHeaderChecks e.options req with
     | .error m => .error m
     | .ok () => .ok (.dynControllerHit e.url)
   : Except String Terminal).mapError
    (fun m => "HANDLE_DYNAMIC_PARAMS_ERROR: " ++ m)

/-- `handleRoute`: exact controller lookup by full URL; a miss falls through
to `handleDynamicParams` (inside this function's `try`), a hit runs
method/header validation and invokes the controller.  The catch prefixes
`HANDLE_ROUTE_ERROR` onto every error raised inside. -/
def handleRoute (t : Tables) (req : RequestInfo) : Except String Terminal :=
  (match assocGet t.controller req.url with
   | none => handleDynamicParams t req
   | some opts =>
     match methodHeaderChecks opts req with
     | .error m => .error m
     | .ok () => .ok (.controllerHit req.url)
   : Except String Terminal).mapError (fun m => "HANDLE_ROUTE_ERROR: " ++ m)

/-! ## The Middleware Chain Runner
(`handleMiddleware`, `server.ts` lines 498-528) -/

/-- What a middleware's default function does with its continuation:
invokes it with a truthy error (whose message may be empty), invokes it with
no error, or never invokes it. -/
inductive MwBehavior where
  | callNext (err : Option String)
  | noCall

/-- Middleware options (`app/types.ts`): allowed methods and a validation
schema whose `headers` field is read without a presence check. -/
structure MwOptions where
  methods : Option (List String)
  validationSchema : Option ValidationSchema

/-- One entry of the `middlewares` map: its key (source filename), options,
and behavior. -/
structure MiddlewareEntry where
  key : String
  options : Option MwOptions
  behavior : MwBehavior

/-- The per-middleware validation: a declared method list not containing the
request method throws `NOT_FOUND`; a present `validationSchema` has its
`headers` field (checked for nothing) passed to `validateHeaders`. -/
def mwChecks (mw : MiddlewareEntry) (req : RequestInfo) : Except String Unit :=
  let methodCheck : Except String Unit :=
    match mw.options with
    | some o =>
      match o.methods with
      | some ms => if ms.contains req.method then .ok () else .error NOT_FOUND
      | none => .ok ()
    | none => .ok ()
  match methodCheck with
  | .error e => .error e
  | .ok () =>
    match mw.options with
    | some o =>
      match o.validationSchema with
      | some vs => validateHeaders req.headers vs.headers
      | none => .ok ()
    | none => .ok ()

/-- The `middlewares.forEach` loop: for each entry in insertion order run the
checks, then its default function; a continuation invoked with a truthy
error throws it (its message replaced by `Middleware error: key` when empty),
a continuation invoked without an error enters `handleRoute`.  Returns the
keys of the middlewares whose continuation entered `handleRoute` (in order)
together with the loop's outcome; any throw aborts the iteration.
`routeResult` is what each (pure, hence identical) `handleRoute` call
raises. -/
def runMiddlewares (req : RequestInfo) (routeResult : Except String Unit) :
    List MiddlewareEntry → List String × Except String Unit
  | [] => ([], .ok ())
  | mw :: rest =>
    match mwChecks mw req with
    | .error e => ([], .error e)
    | .ok () =>
      match mw.behavior with
      | .noCall => runMiddlewares req routeResult rest
      | .callNext (some errMsg) =>
        ([], .error (if errMsg = "" then "Middleware error: " ++ mw.key else errMsg))
      | .callNext none =>
        match routeResult with
        | .error e => ([mw.key], .error e)
        | .ok () =>
          let r := runMiddlewares req routeResult rest
          (mw.key :: r.1, r.2)

/-- `handleMiddleware`: the loop above inside a `try` whose catch prefixes
`HANDLE_MIDDLEWARE_ERROR`. -/
def handleMiddleware (req : RequestInfo) (routeResult : Except String Unit)
    (mws : List MiddlewareEntry) : List String × Except String Unit :=
  let r := runMiddlewares req routeResult mws
  (r.1, r.2.mapError (fun m => "HANDLE_MIDDLEWARE_ERROR: " ++ m))

/-! ## `handleRequest` (`server.ts` lines 643-653) -/

/-- How a request leaves `handleRequest`: the root banner for path `"/"`,
the middleware chain when any middleware is registered (carrying the keys
that entered routing), a resolved terminal handler, or the error path into
`handleRequestError`. -/
inductive DispatchOutcome where
  | rootBanner
  | viaMiddleware (routeEntries : List String)
  | terminal (t : Terminal)
  | failure (msg : String)

/-- `handleRequest` after the context is built: path `"/"` short-circuits to
the root handler, a non-empty middleware map hands off to the chain runner
(each successful continuation re-entering `handleRoute`), and otherwise
`handleRoute` runs once; a thrown error lands in `handleRequestError`. -/
def handleRequest (t : Tables) (mws : List MiddlewareEntry) (req : RequestInfo) :
    DispatchOutcome :=
  if req.url = "/" then .rootBanner
  else if mws.length > 0 then
    let r := handleMiddleware req ((handleRoute t req).map (fun _ => ())) mws
    match r.2 with
    | .ok () => .viaMiddleware r.1
    | .error e => .failure e
  else
    match handleRoute t req with
    | .ok term => .terminal term
    | .error e => .failure e

/-! ## Claim C4: the `send` serialization -/

/-- C4: for every payload value passed to `send`: a string or byte array is
passed through unchanged as the body; `undefined` becomes the literal body
text `"undefined"`; an array or plain object becomes its JSON text (so
`send([1,2,3])` produces body `"[1,2,3]"`); and a primitive such as a number
or boolean becomes its string form (so `send(42)` produces body `"42"`). -/
theorem c4_send_serialization :
    (∀ s, serializeBody (.str s) = .text s) ∧
    (∀ b, serializeBody (.bytes b) = .binary b) ∧
    serializeBody .undef = .text "undefined" ∧
    (∀ xs, serializeBody (.arr xs) = .text (Json.stringify (.arr xs))) ∧
    (∀ fs, serializeBody (.obj fs) = .text (Json.stringify (.obj fs))) ∧
    serializeBody (.arr [.num 1, .num 2, .num 3]) = .text "[1,2,3]" ∧
    serializeBody (.num 42) = .text "42" ∧
    (∀ b, serializeBody (.bool b) = .text (if b then "true" else "false")) ∧
    (∀ cors app date cookie p st hs,
      (send (okSendCtx cors app date cookie) p st hs).bodyOf =
        some (serializeBody p)) :=
  ⟨fun _ => rfl, fun _ => rfl, rfl, fun _ => rfl, fun _ => rfl, rfl, rfl,
   fun _ => rfl, fun _ _ _ _ _ _ _ => rfl⟩

/-! ## Claim C9: `send` never throws past its boundary -/

/-- C9: for every payload, status, headers and request environment, `send`
returns normally: a failing transport write is caught and turned into a
logged `SEND_ERROR` (never rethrown), and a succeeding one writes the
serialized response. -/
theorem c9_send_never_throws (ctx : SendCtx) (p : Payload) (st : Nat)
    (hs : HeadersT) :
    (∀ e, ctx.respond st (sendHeaders ctx hs) (serializeBody p) = .error e →
      send ctx p st hs = .loggedError ("SEND_ERROR: " ++ e)) ∧
    (ctx.respond st (sendHeaders ctx hs) (serializeBody p) = .ok () →
      send ctx p st hs = .responded st (sendHeaders ctx hs) (serializeBody p)) := by
  constructor
  · intro e he
    simp only [send]
    rw [he]
  · intro h
    simp only [send]
    rw [h]

/-- Witness for C9 at a concrete failing transport. -/
theorem c9_send_never_throws_witness :
    (failSendCtx "broken pipe").respond 200
        (sendHeaders (failSendCtx "broken pipe") [])
        (serializeBody (.str "hello")) = .error "broken pipe" ∧
    send (failSendCtx "broken pipe") (.str "hello") 200 [] =
      .loggedError ("SEND_ERROR: " ++ "broken pipe") :=
  ⟨rfl, (c9_send_never_throws (failSendCtx "broken pipe") (.str "hello") 200 []).1
    "broken pipe" rfl⟩

/-! ## Claim C3: the per-request error boundary -/

/-- C3 counterexample: an error message containing both `VALIDATE` and
`NOT_FOUND` (reachable, e.g. a handler-thrown error or a failed validation
of a header field named `NOT_FOUND`) gets status 400 from the code — the
later `VALIDATE` check overrides — while the claim's first rule (message
contains `NOT_FOUND` → 404) demands 404. -/
theorem c3_error_boundary_counterexample :
    (handleRequestError "VALIDATE NOT_FOUND").status = 400 ∧
    strIncludes "VALIDATE NOT_FOUND" NOT_FOUND = true ∧
    (400 : Nat) ≠ 404 :=
  ⟨rfl, rfl, by decide⟩

/-- C3 amended: the boundary responds 400 when the message contains
`VALIDATE`, else 404 when it contains `NOT_FOUND`, else 500 — the validation
rule takes precedence — and the body is always the JSON envelope over the
message with content type `application/json`. -/
theorem c3_error_boundary (msg : String) :
    (strIncludes msg "VALIDATE" = true → (handleRequestError msg).status = 400) ∧
    (strIncludes msg "VALIDATE" = false → strIncludes msg NOT_FOUND = true →
      (handleRequestError msg).status = 404) ∧
    (strIncludes msg "VALIDATE" = false → strIncludes msg NOT_FOUND = false →
      (handleRequestError msg).status = 500) ∧
    (handleRequestError msg).body =
      "\x7b\"error\":true,\"message\":\"" ++ jsonEscape msg ++ "\"\x7d" ∧
    (handleRequestError msg).headers = [(CONTENT_TYPE, "application/json")] := by
  refine ⟨?_, ?_, ?_, ?_, rfl⟩
  · intro h
    simp [handleRequestError, h]
  · intro h1 h2
    simp [handleRequestError, h1, h2]
  · intro h1 h2
    simp [handleRequestError, h1, h2]
  · have hk1 : jsonEscape "error" = "error" := rfl
    have hk2 : jsonEscape "message" = "message" := rfl
    simp only [handleRequestError, Json.stringify, Json.stringifyFields, hk1, hk2,
      String.append_assoc]
    rfl

/-- Witness for C3 at the concrete dispatch-miss message. -/
theorem c3_error_boundary_witness :
    strIncludes "HANDLE_ROUTE_ERROR: NOT_FOUND" "VALIDATE" = false ∧
    strIncludes "HANDLE_ROUTE_ERROR: NOT_FOUND" NOT_FOUND = true ∧
    (handleRequestError "HANDLE_ROUTE_ERROR: NOT_FOUND").status = 404 :=
  ⟨rfl, rfl, (c3_error_boundary "HANDLE_ROUTE_ERROR: NOT_FOUND").2.1 rfl rfl⟩

/-! ## Claim C10: the request-context `send` closure -/

/-- C10 counterexample: with status 0 staged via `status(0)` and the empty
content type staged via `type("")`, `request.send(payload, 404, headers)`
hands status 200 — not the staged 0 — to the sender, and keeps the explicit
headers although a content type was staged: both staged values are falsy in
the source's truthiness tests. -/
theorem c10_request_send_counterexample :
    (requestSendArgs ⟨some 0, some ""⟩ (some 404) [("x", "y")]).1 = 200 ∧
    (200 : Nat) ≠ 0 ∧
    (requestSendArgs ⟨some 0, some ""⟩ (some 404) [("x", "y")]).2 = [("x", "y")] :=
  ⟨rfl, by decide, rfl⟩

/-- C10 amended: the explicit status argument is ignored; the status is the
staged `status()` value when one was staged and nonzero, and 200 otherwise
(a staged 0 counts as unstaged); when a nonempty content type was staged via
`type()`, the explicit headers are replaced by a fresh header set holding
only that content type, and otherwise (no staged type, or a staged empty
one) the explicit headers are kept. -/
theorem c10_request_send_staging (st : ReqState) (sArg : Option Nat)
    (hArg : HeadersT) :
    (∀ a b, requestSendArgs st a hArg = requestSendArgs st b hArg) ∧
    (∀ n, st.httpStatus = some n → n ≠ 0 →
      (requestSendArgs st sArg hArg).1 = n) ∧
    (st.httpStatus = none → (requestSendArgs st sArg hArg).1 = 200) ∧
    (st.httpStatus = some 0 → (requestSendArgs st sArg hArg).1 = 200) ∧
    (∀ ct, st.contentType = some ct → ct ≠ "" →
      (requestSendArgs st sArg hArg).2 = [(CONTENT_TYPE, ct)]) ∧
    (st.contentType = none → (requestSendArgs st sArg hArg).2 = hArg) ∧
    (st.contentType = some "" → (requestSendArgs st sArg hArg).2 = hArg) := by
  refine ⟨fun a b => rfl, ?_, ?_, ?_, ?_, ?_, ?_⟩
  · intro n hn hnz
    simp [requestSendArgs, hn, hnz]
  · intro h
    simp [requestSendArgs, h]
  · intro h
    simp [requestSendArgs, h]
  · intro ct hct hne
    simp [requestSendArgs, hct, hne, headersSet, CONTENT_TYPE]
  · intro h
    simp [requestSendArgs, h]
  · intro h
    simp [requestSendArgs, h]

/-- Witness for C10 with a staged nonzero status. -/
theorem c10_request_send_staging_witness :
    (⟨some 201, some "text/html"⟩ : ReqState).httpStatus = some 201 ∧
    (201 : Nat) ≠ 0 ∧
    (requestSendArgs ⟨some 201, some "text/html"⟩ none [("x", "y")]).1 = 201 :=
  ⟨rfl, by decide,
   (c10_request_send_staging ⟨some 201, some "text/html"⟩ none [("x", "y")]).2.1
     201 rfl (by decide)⟩

/-! ## Claim C5: querystring validation (the `validateQuery` guard) -/

/-- A schema demanding the query field `q`. -/
def c5Schema : Schema := ⟨["q"], ["q"]⟩

/-- A parametrized controller declaring a `querystring` schema and no
`params` schema. -/
def c5Entry : DynEntry :=
  ⟨"/p", some ⟨none, some ⟨none, none, some c5Schema, none⟩⟩⟩

/-- The same controller with a `params` schema also declared. -/
def c5EntryWithParams : DynEntry :=
  ⟨"/p", some ⟨none, some ⟨none, some c5Schema, some c5Schema, none⟩⟩⟩

/-- C5, evaluated at the failing input: the route `/p` declares a
`querystring` schema requiring the field `q`; the request URL `/p?x=1`
includes the route key and its parsed query violates that schema, yet
`getQuery` returns the query unvalidated — `validateQuery` guards on the
presence of the `params` schema, not the `querystring` schema it validates
against.  With a `params` schema also present, the same call does raise the
validation error, confirming which field the guard reads. -/
theorem c5_query_validation_skipped :
    getQuery [c5Entry] none (some "/p?x=1") = .ok [("x", some "1")] ∧
    validateQuery [c5Entry] [("x", some "1")] "/p?x=1" = .ok () ∧
    (c5Entry.options.bind (fun o => o.validationSchema)).map
      (fun vs => vs.querystring.isSome) = some true ∧
    validateObject [("x", some "1")] (some c5Schema) =
      .error "VALIDATION_ERROR: q is required" ∧
    getQuery [c5EntryWithParams] none (some "/p?x=1") =
      .error "GET_QUERY_ERROR: VALIDATE_QUERY_ERROR: VALIDATION_ERROR: q is required" :=
  ⟨rfl, rfl, rfl, rfl, rfl⟩

/-! ## Claim C8: `getQuery` parsing -/

/-- `getQuery`'s query-text selection as claim C8 words it, for comparison:
everything after the FIRST question mark is parsed. -/
def getQueryClaimWording (url : String) : Option DataT :=
  match breakAt ['?'] url.toList with
  | none => none
  | some (_, after) => some (queryParse (String.mk after))

/-- C8 counterexample: on a URL with two question marks the code parses only
the text between the first and second `?` (`url.split("?")[1]`), not the
whole substring after the first `?` as the claim words it. -/
theorem c8_get_query_counterexample :
    getQuery [] none (some "/p?a=1?b=2") = .ok [("a", some "1")] ∧
    getQueryClaimWording "/p?a=1?b=2" = some [("a", some "1?b")] ∧
    ([("a", some "1")] : DataT) ≠ [("a", some "1?b")] :=
  ⟨rfl, rfl, by decide⟩

/-- C8 amended: `getQuery` parses the second component of splitting the URL
on `?` — the text between the first and second `?` — into key=value pairs
split on `&`/`=`; with a name argument on `/p?x=1&y=2` and name `x` it
returns the one-entry mapping from `x` to `"1"`; and on a URL containing no
`?` (or an empty query text) it fails with the query-not-found error. -/
theorem c8_get_query (key : Option String) (url : String) :
    getQuery [] (some "x") (some "/p?x=1&y=2") = .ok [("x", some "1")] ∧
    (url ≠ "" → (strSplitChar url '?').drop 1 = [] →
      getQuery [] key (some url) = .error "GET_QUERY_ERROR: Query not found") ∧
    (∀ q rest, url ≠ "" → (strSplitChar url '?').drop 1 = q :: rest → q ≠ "" →
      getQuery [] none (some url) = .ok (queryParse q)) ∧
    (∀ q rest k, url ≠ "" → (strSplitChar url '?').drop 1 = q :: rest → q ≠ "" →
      getQuery [] (some k) (some url) = .ok [(k, dataGet (queryParse q) k)]) ∧
    queryParse "x=1&y=2" = [("x", some "1"), ("y", some "2")] := by
  refine ⟨rfl, ?_, ?_, ?_, rfl⟩
  · intro hne hsplit
    simp [getQuery, hne, hsplit, Except.mapError]
  · intro q rest hne hsplit hq
    simp [getQuery, hne, hsplit, hq, validateQuery, Except.mapError]
  · intro q rest k hne hsplit hq
    simp [getQuery, hne, hsplit, hq, validateQuery, Except.mapError]

/-- Witness for C8 on the concrete URL `/p` (no question mark). -/
theorem c8_get_query_witness :
    ("/p" : String) ≠ "" ∧ (strSplitChar "/p" '?').drop 1 = [] ∧
    getQuery [] none (some "/p") = .error "GET_QUERY_ERROR: Query not found" :=
  ⟨by decide, rfl, (c8_get_query none "/p").2.1 (by decide) rfl⟩

/-! ## Claim C7: the form-urlencoded decoder -/

/-- C7 counterexample: a body containing the content-type header value has
that text's first occurrence removed before the split on `&`
(`bodyString.replace(contentType, "")`), so the claim's direct split of the
body computes a different decoding. -/
theorem c7_form_counterexample :
    handleFormUrlEncoded idFormCtx "application/x-www-form-urlencoded"
        "k=application/x-www-form-urlencoded" =
      .ok (some (.single (.obj [("k", .str "")]))) ∧
    handleFormUrlEncodedClaimWording idFormCtx
        "k=application/x-www-form-urlencoded" =
      .ok (some (.single
        (.obj [("k", .str "application/x-www-form-urlencoded")]))) ∧
    ("" : String) ≠ "application/x-www-form-urlencoded" :=
  ⟨rfl, rfl, by decide⟩

/-- C7 amended: the first occurrence of the content-type header value is
removed from the body, and the remainder is split on `&`; each segment
containing `=` is URL-decoded on both key and value into a one-field object;
a segment without `=` is parsed as a raw JSON value; and the decoder returns
the single object when exactly one segment was decoded, the ordered list
when more than one was, and `undefined` when none were. -/
theorem c7_form_urlencoded (ctx : FormCtx) (ct body : String) :
    handleFormUrlEncoded ctx ct body =
      handleFormUrlEncodedClaimWording ctx (replaceFirst body ct "") ∧
    (∀ i, strIncludes i "=" = false → decodeSegment ctx i = ctx.jsonParse i) ∧
    (∀ i k v dk dv, strIncludes i "=" = true → strSplitChar i '=' = [k, v] →
      ctx.decodeURIComponent v = .ok dv → ctx.decodeURIComponent k = .ok dk →
      decodeSegment ctx i = .ok (.obj [(dk, .str dv)])) ∧
    formShape [] = none ∧
    (∀ d, formShape [d] = some (.single d)) ∧
    (∀ ds, ds.length > 1 → formShape ds = some (.many ds)) ∧
    handleFormUrlEncoded idFormCtx "ct0" "a=1&b=2" =
      .ok (some (.many [.obj [("a", .str "1")], .obj [("b", .str "2")]])) ∧
    handleFormUrlEncoded idFormCtx "ct0" "a=1" =
      .ok (some (.single (.obj [("a", .str "1")]))) := by
  refine ⟨rfl, ?_, ?_, rfl, fun d => rfl, ?_, rfl, rfl⟩
  · intro i hi
    simp [decodeSegment, hi]
  · intro i k v dk dv hi hsplit hv hk
    simp [decodeSegment, hi, hsplit, hv, hk]
  · intro ds hlen
    simp [formShape, hlen]

/-- Witness for C7 on a concrete segment without `=`. -/
theorem c7_form_urlencoded_witness :
    strIncludes "7" "=" = false ∧
    decodeSegment idFormCtx "7" = idFormCtx.jsonParse "7" :=
  ⟨rfl, (c7_form_urlencoded idFormCtx "x" "y").2.1 "7" rfl⟩

/-! ## Claim C1: dispatch resolution order -/

/-- The miss-everything error message dispatch produces: `NOT_FOUND` from the
static lookup, wrapped by the catches of `handleDynamicParams` and
`handleRoute`. -/
def dispatchMissMessage : String :=
  "HANDLE_ROUTE_ERROR: HANDLE_DYNAMIC_PARAMS_ERROR: HANDLE_STATIC_FILE_ERROR: "
    ++ NOT_FOUND

/-- C1: for a request whose path is not `"/"` and with no middleware
registered, dispatch resolves exactly one terminal handler in order:
exact-match controller by full path first; only on a miss, the first
registered parametrized controller whose key is a substring of the path;
then exact-match page; then parametrized page; then static file; and when
every lookup misses, the request fails with an error containing
`NOT_FOUND`. -/
theorem c1_dispatch_order (t : Tables) (req : RequestInfo)
    (hroot : req.url ≠ "/") :
    (∀ opts, assocGet t.controller req.url = some opts →
      methodHeaderChecks opts req = .ok () →
      handleRequest t [] req = .terminal (.controllerHit req.url)) ∧
    (∀ e, assocGet t.controller req.url = none →
      t.dynamicController.find? (fun d => strIncludes req.url d.url) = some e →
      methodHeaderChecks e.options req = .ok () →
      handleRequest t [] req = .terminal (.dynControllerHit e.url)) ∧
    (assocGet t.controller req.url = none →
      t.dynamicController.find? (fun d => strIncludes req.url d.url) = none →
      req.url ∈ t.pages →
      handleRequest t [] req = .terminal (.pageHit req.url)) ∧
    (∀ k, assocGet t.controller req.url = none →
      t.dynamicController.find? (fun d => strIncludes req.url d.url) = none →
      req.url ∉ t.pages →
      t.dynamicPage.find? (fun p => strIncludes req.url p) = some k →
      handleRequest t [] req = .terminal (.dynPageHit k)) ∧
    (assocGet t.controller req.url = none →
      t.dynamicController.find? (fun d => strIncludes req.url d.url) = none →
      req.url ∉ t.pages →
      t.dynamicPage.find? (fun p => strIncludes req.url p) = none →
      req.url ∈ t.staticFiles →
      handleRequest t [] req = .terminal (.staticHit req.url)) ∧
    (assocGet t.controller req.url = none →
      t.dynamicController.find? (fun d => strIncludes req.url d.url) = none →
      req.url ∉ t.pages →
      t.dynamicPage.find? (fun p => strIncludes req.url p) = none →
      req.url ∉ t.staticFiles →
      handleRequest t [] req = .failure dispatchMissMessage ∧
      strIncludes dispatchMissMessage NOT_FOUND = true) := by
  refine ⟨?_, ?_, ?_, ?_, ?_, ?_⟩
  · intro opts hc hok
    simp [handleRequest, hroot, handleRoute, hc, hok, Except.mapError]
  · intro e hc hd hok
    simp [handleRequest, hroot, handleRoute, handleDynamicParams, hc, hd, hok,
      Except.mapError]
  · intro hc hd hp
    simp [handleRequest, hroot, handleRoute, handleDynamicParams, handlePage,
      hc, hd, hp, Except.mapError]
  · intro k hc hd hp hdp
    simp [handleRequest, hroot, handleRoute, handleDynamicParams, handlePage,
      handleDynamicPage, hc, hd, hp, hdp, Except.mapError]
  · intro hc hd hp hdp hs
    simp [handleRequest, hroot, handleRoute, handleDynamicParams, handlePage,
      handleDynamicPage, handleStaticFile, hc, hd, hp, hdp, hs, Except.mapError]
  · intro hc hd hp hdp hs
    refine ⟨?_, rfl⟩
    simp [handleRequest, hroot, handleRoute, handleDynamicParams, handlePage,
      handleDynamicPage, handleStaticFile, hc, hd, hp, hdp, hs, Except.mapError,
      dispatchMissMessage, NOT_FOUND]

/-- Route tables with nothing registered. -/
def emptyTables : Tables := ⟨[], [], [], [], []⟩

/-- Witness for C1: every lookup misses on the empty tables, and the request
fails with the `NOT_FOUND`-carrying message. -/
theorem c1_dispatch_order_witness :
    (("/missing" : String) ≠ "/") ∧
    handleRequest emptyTables [] ⟨"/missing", "GET", []⟩ =
      .failure dispatchMissMessage :=
  ⟨by decide,
   ((c1_dispatch_order emptyTables ⟨"/missing", "GET", []⟩
     (by decide)).2.2.2.2.2 rfl rfl (List.not_mem_nil _) rfl
     (List.not_mem_nil _)).1⟩

/-! ## Claim C2: each succeeding middleware re-enters routing -/

/-- The chain runner on middlewares that all pass their checks and all
invoke the continuation without an error: every one of them enters
`handleRoute`, in insertion order. -/
theorem runMiddlewares_all_next_ok (req : RequestInfo) :
    ∀ mws : List MiddlewareEntry,
      (∀ mw ∈ mws, mwChecks mw req = .ok () ∧ mw.behavior = .callNext none) →
      runMiddlewares req (.ok ()) mws = (mws.map (fun mw => mw.key), .ok ())
  | [], _ => rfl
  | mw :: rest, h => by
    have h1 := h mw (List.mem_cons_self _ _)
    have ih := runMiddlewares_all_next_ok req rest
      (fun m hm => h m (List.mem_cons_of_mem _ hm))
    simp [runMiddlewares, h1.1, h1.2, ih]

/-- C2: for a request on which routing completes without an error and with N
registered middleware entries that all pass their checks and invoke their
continuation callback without an error, `handleRoute` is entered N times,
once per middleware in registration (insertion) order. -/
theorem c2_middleware_reenters_routing (req : RequestInfo)
    (mws : List MiddlewareEntry)
    (hall : ∀ mw ∈ mws, mwChecks mw req = .ok () ∧ mw.behavior = .callNext none) :
    handleMiddleware req (.ok ()) mws = (mws.map (fun mw => mw.key), .ok ()) ∧
    (handleMiddleware req (.ok ()) mws).1.length = mws.length := by
  have h := runMiddlewares_all_next_ok req mws hall
  constructor
  · simp [handleMiddleware, h, Except.mapError]
  · simp [handleMiddleware, h]

/-- Witness for C2 with two concrete middlewares: routing is entered twice,
in insertion order. -/
theorem c2_middleware_reenters_routing_witness :
    handleMiddleware ⟨"/a", "GET", []⟩ (.ok ())
        [⟨"m1", none, .callNext none⟩, ⟨"m2", none, .callNext none⟩] =
      (["m1", "m2"], .ok ()) :=
  (c2_middleware_reenters_routing ⟨"/a", "GET", []⟩
    [⟨"m1", none, .callNext none⟩, ⟨"m2", none, .callNext none⟩]
    (by intro mw hm
        simp only [List.mem_cons, List.not_mem_nil, or_false] at hm
        rcases hm with rfl | rfl <;> exact ⟨rfl, rfl⟩)).1

/-! ## Claim C6: a middleware erroring its continuation -/

/-- C6 counterexample: with two middlewares where the first invokes its
continuation cleanly and the second invokes it with an error, the chain
aborts — yet `handleRoute` was already entered once (by the first
middleware), so the matched route handler IS invoked for that request,
against the claim's "never invoked". -/
theorem c6_middleware_error_counterexample :
    handleMiddleware ⟨"/a", "GET", []⟩ (.ok ())
        [⟨"m1", none, .callNext none⟩, ⟨"m2", none, .callNext (some "boom")⟩] =
      (["m1"], .error "HANDLE_MIDDLEWARE_ERROR: boom") ∧
    (["m1"] : List String) ≠ [] :=
  ⟨rfl, by decide⟩

/-- The chain runner on a middleware list whose entries up to some point all
succeed and whose next entry errors its continuation: the loop aborts there
with the (possibly key-annotated) error, and only the earlier entries
entered routing. -/
theorem runMiddlewares_error_at (req : RequestInfo) (mw : MiddlewareEntry)
    (post : List MiddlewareEntry) (e : String)
    (hchk : mwChecks mw req = .ok ())
    (hbeh : mw.behavior = .callNext (some e)) :
    ∀ pre : List MiddlewareEntry,
      (∀ m ∈ pre, mwChecks m req = .ok () ∧ m.behavior = .callNext none) →
      runMiddlewares req (.ok ()) (pre ++ mw :: post) =
        (pre.map (fun m => m.key),
         .error (if e = "" then "Middleware error: " ++ mw.key else e))
  | [], _ => by simp [runMiddlewares, hchk, hbeh]
  | m :: rest, h => by
    have h1 := h m (List.mem_cons_self _ _)
    have ih := runMiddlewares_error_at req mw post e hchk hbeh rest
      (fun x hx => h x (List.mem_cons_of_mem _ hx))
    simp [runMiddlewares, h1.1, h1.2, ih]

/-- C6 amended: when a middleware invokes its continuation callback with an
error, the error propagates (annotated with the middleware's key when its
message is empty) under the `HANDLE_MIDDLEWARE_ERROR` prefix and the chain
aborts at that middleware: no routing occurs for it or for any later
middleware — the routing entries are exactly those of the earlier succeeding
middlewares, so the matched route handler is never invoked only when the
erroring middleware comes first. -/
theorem c6_middleware_error_aborts (req : RequestInfo)
    (pre : List MiddlewareEntry) (mw : MiddlewareEntry)
    (post : List MiddlewareEntry) (e : String)
    (hpre : ∀ m ∈ pre, mwChecks m req = .ok () ∧ m.behavior = .callNext none)
    (hchk : mwChecks mw req = .ok ())
    (hbeh : mw.behavior = .callNext (some e)) :
    handleMiddleware req (.ok ()) (pre ++ mw :: post) =
      (pre.map (fun m => m.key),
       .error ("HANDLE_MIDDLEWARE_ERROR: " ++
         (if e = "" then "Middleware error: " ++ mw.key else e))) := by
  have h := runMiddlewares_error_at req mw post e hchk hbeh pre hpre
  simp [handleMiddleware, h, Except.mapError]

/-- Witness for C6: a single messageless erroring middleware aborts with the
annotated error and routing is never entered. -/
theorem c6_middleware_error_aborts_witness :
    handleMiddleware ⟨"/a", "GET", []⟩ (.ok ())
        [⟨"m", none, .callNext (some "")⟩] =
      ([], .error "HANDLE_MIDDLEWARE_ERROR: Middleware error: m") := by
  have h := c6_middleware_error_aborts ⟨"/a", "GET", []⟩ []
    ⟨"m", none, .callNext (some "")⟩ [] ""
    (by intro m hm; cases hm) rfl rfl
  simpa using h

end Fastro
